import Mathlib

/-!
A formal model of the core of the `aio-nettools` network measurement toolkit
(ICMP ping engine, NDT7 session machine, sliding-window statistics), as a
shallow embedding of the Python sources, together with proofs of the
behavioural properties stated in the toolkit's specification.

Conventions: wall-clock and monotonic times are rationals (`ℚ`), byte strings
are lists of naturals below 256, machine integers are `ℕ`/`ℤ` with explicit
`% 2^w` where the source wraps.
-/

set_option autoImplicit false

/-- Probe status, from the `PingResult.Status` enum in `ping/ping.py`. -/
inductive PingResult.Status
  | SCHEDULED    -- Not sent yet
  | PENDING      -- Ping sent
  | SUCCESS      -- Pong received
  | UNREACHABLE  -- Received a Network Unreachable response
  | TIMEOUT      -- No response received before reaching the timeout
  | CANCELED     -- Aborted before receiving the response
deriving DecidableEq, Repr

/-- A destination address handed to `Ping.ping`: an `IPv4Address`, an
`IPv6Address`, or any other Python object (the `else` branch of the
`isinstance` chain). -/
inductive Addr
  | v4 (a : ℕ)
  | v6 (a : ℕ)
  | other
deriving DecidableEq, Repr

/-- The `PingResult` dataclass of `ping/ping.py`.  The `asyncio.Future`
`_future` is modelled by whether `set_result` has been called on it. -/
structure PingResult where
  addr : Addr
  seq : ℕ
  payload : List ℕ
  start : ℚ
  end_ : Option ℚ := none
  status : PingResult.Status := .PENDING
  timestamp : ℚ
  futureResolved : Bool := false
deriving DecidableEq, Repr

/-- `PingResult(addr=addr, seq=seq, payload=payload)` as constructed by
`Ping.ping`: every defaulted field keeps its dataclass default
(`end=None`, `status=Status.PENDING`, fresh unresolved future); the
`default_factory` fields `start` and `timestamp` take the call-time clock
values, passed here as arguments. -/
def mkPingResult (addr : Addr) (seq : ℕ) (payload : List ℕ)
    (start timestamp : ℚ) : PingResult :=
  { addr := addr, seq := seq, payload := payload,
    start := start, timestamp := timestamp }

/-- `PingResult.complete` from `ping/ping.py`: only when the current status is
`PENDING` does it set the status, record `end = timer()` (the argument `now`)
and resolve the future; otherwise it does nothing. -/
def PingResult.complete (r : PingResult) (status : PingResult.Status)
    (now : ℚ) : PingResult :=
  if r.status = .PENDING then
    { r with status := status, end_ := some now, futureResolved := true }
  else r

/-- The four terminal statuses: every call site of `complete` in
`ping/ping.py` passes one of these. -/
def PingResult.Status.IsTerminal (s : PingResult.Status) : Prop :=
  s = .SUCCESS ∨ s = .TIMEOUT ∨ s = .UNREACHABLE ∨ s = .CANCELED

instance (s : PingResult.Status) : Decidable s.IsTerminal := by
  unfold PingResult.Status.IsTerminal; infer_instance

/-- The states a `PingResult` can be in: freshly constructed by `Ping.ping`,
or the image of a reachable state under a `complete` call with one of the
terminal statuses the engine actually passes. -/
inductive PingResult.Reachable : PingResult → Prop
  | created (addr : Addr) (seq : ℕ) (payload : List ℕ) (start ts : ℚ) :
      PingResult.Reachable (mkPingResult addr seq payload start ts)
  | completed (r : PingResult) (s : PingResult.Status) (t : ℚ) :
      PingResult.Reachable r → s.IsTerminal →
      PingResult.Reachable (r.complete s t)

/-- C1: once a `PingResult` leaves `PENDING` its status never changes again:
`complete s` on a `PENDING` result sets the status to `s`, sets `end`, and
resolves the future; every subsequent `complete`, with any status and at any
time, is a no-op, so the terminal status observed is exactly the one of the
first `complete` call, one of SUCCESS, TIMEOUT, UNREACHABLE, CANCELED. -/
theorem pingResult_complete_exactly_once (r : PingResult)
    (hr : r.status = .PENDING) (s : PingResult.Status) (hs : s.IsTerminal)
    (t : ℚ) :
    (r.complete s t).status = s ∧
    (r.complete s t).end_ = some t ∧
    (r.complete s t).futureResolved = true ∧
    (r.complete s t).status.IsTerminal ∧
    ∀ (s' : PingResult.Status) (t' : ℚ),
      (r.complete s t).complete s' t' = r.complete s t := by
  have hne : s ≠ .PENDING := by
    rcases hs with h | h | h | h <;> subst h <;> intro hc <;> cases hc
  unfold PingResult.complete
  simp only [hr, if_pos rfl]
  refine ⟨rfl, rfl, rfl, hs, ?_⟩
  intro s' t'
  simp [hne]

/-- Witness for C1 at a concrete `PENDING` result completed with `SUCCESS`. -/
theorem pingResult_complete_exactly_once_witness :
    ((mkPingResult .other 0 [] 0 0).complete .SUCCESS 1).status = .SUCCESS ∧
    ((mkPingResult .other 0 [] 0 0).complete .SUCCESS 1).end_ = some 1 ∧
    ((mkPingResult .other 0 [] 0 0).complete .SUCCESS 1).futureResolved = true ∧
    ((mkPingResult .other 0 [] 0 0).complete .SUCCESS 1).status.IsTerminal ∧
    ∀ (s' : PingResult.Status) (t' : ℚ),
      (((mkPingResult .other 0 [] 0 0).complete .SUCCESS 1).complete s' t') =
        (mkPingResult .other 0 [] 0 0).complete .SUCCESS 1 :=
  pingResult_complete_exactly_once (mkPingResult .other 0 [] 0 0) rfl
    .SUCCESS (Or.inl rfl) 1

/-- C5 counterexample: a `PingResult` as constructed by `Ping.ping` has
status `PENDING` from the moment of creation — before its datagram is even
enqueued, let alone flushed to the kernel — not `SCHEDULED`. -/
theorem pingResult_created_pending_not_scheduled :
    (mkPingResult (.v4 0x7F000001) 0 [1, 2, 3, 4, 5, 6, 7, 8, 9, 10] 0 0).status
      = .PENDING ∧
    PingResult.Status.PENDING ≠ .SCHEDULED := by
  constructor
  · rfl
  · intro h; cases h

/-- C5 amended: every `PingResult` is created with status `PENDING` (the
engine never assigns `SCHEDULED`), and in every state reachable from creation
through `complete` calls with terminal statuses, `end` is set iff the status
is neither `SCHEDULED` nor `PENDING`. -/
theorem pingResult_end_iff_terminal :
    (∀ (addr : Addr) (seq : ℕ) (payload : List ℕ) (start ts : ℚ),
      (mkPingResult addr seq payload start ts).status = .PENDING) ∧
    ∀ (r : PingResult), r.Reachable →
      (r.end_.isSome ↔ (r.status ≠ .SCHEDULED ∧ r.status ≠ .PENDING)) := by
  refine ⟨fun _ _ _ _ _ => rfl, ?_⟩
  intro r hr
  induction hr with
  | created addr seq payload start ts =>
      simp [mkPingResult]
  | completed r s t _hr hs ih =>
      by_cases hp : r.status = .PENDING
      · have hne : s ≠ .SCHEDULED ∧ s ≠ .PENDING := by
          rcases hs with h | h | h | h <;> subst h <;>
            exact ⟨(fun hc => nomatch hc), (fun hc => nomatch hc)⟩
        unfold PingResult.complete
        simp [hp, hne.1, hne.2]
      · unfold PingResult.complete
        simp only [if_neg hp]
        exact ih

/-- Witness for C5's amended theorem at a freshly created result. -/
theorem pingResult_end_iff_terminal_witness :
    ((mkPingResult .other 0 [] 0 0).end_.isSome ↔
      ((mkPingResult .other 0 [] 0 0).status ≠ .SCHEDULED ∧
       (mkPingResult .other 0 [] 0 0).status ≠ .PENDING)) :=
  pingResult_end_iff_terminal.2 (mkPingResult .other 0 [] 0 0)
    (.created .other 0 [] 0 0)

/-! ### ICMP packet format and the `Ping` engine (`ping/ping.py`) -/

/-- `struct.pack("!B", n)`: one byte. -/
def pack_u8 (n : ℕ) : List ℕ := [n % 256]

/-- `struct.pack("!H", n)`: big-endian 16-bit value as two bytes. -/
def pack_u16 (n : ℕ) : List ℕ := [n / 256 % 256, n % 256]

namespace Ping

def ICMP_ECHO_REQUEST : ℕ := 8
def ICMP_ECHO_REPLY : ℕ := 0
def ICMP6_ECHO_REQUEST : ℕ := 128
def ICMP6_ECHO_REPLY : ℕ := 129

end Ping

/-- The datagram built by `Ping.ping`:
`struct.pack("!BBHHH", icmp_type, 0, 0, 0, seq)` — code, checksum and
identifier all zero on send — followed by the payload bytes. -/
def echoRequestPacket (icmp_type seq : ℕ) (payload : List ℕ) : List ℕ :=
  pack_u8 icmp_type ++ pack_u8 0 ++ pack_u16 0 ++ pack_u16 0 ++ pack_u16 seq
    ++ payload

/-- The field extraction of `Ping.datagram_received`: `type, code, checksum`
from the first four bytes (`struct.unpack("!BBH", icmp_data[:4])`), then
`identifier, sequence` from the next four (`struct.unpack("!HH", ...)`), and
every remaining byte as the payload.  `none` when the datagram is shorter
than the eight header bytes (`struct.unpack` raises there). -/
def datagram_fields (icmp_data : List ℕ) :
    Option (ℕ × ℕ × ℕ × ℕ × ℕ × List ℕ) :=
  match icmp_data with
  | t :: c :: ck1 :: ck2 :: i1 :: i2 :: s1 :: s2 :: payload =>
      some (t, c, ck1 * 256 + ck2, i1 * 256 + i2, s1 * 256 + s2, payload)
  | _ => none

/-- The reply gate of `Ping.datagram_received`: only datagrams with
`type in [ICMP_ECHO_REPLY, ICMP6_ECHO_REPLY]` and `code == 0` are matched
against the pending map; everything else is silently discarded. -/
def isEchoReply (t c : ℕ) : Bool :=
  (t == Ping.ICMP_ECHO_REPLY || t == Ping.ICMP6_ECHO_REPLY) && c == 0

/-- The mutable state of a `Ping` engine: the 16-bit sequence counter, the
pending map keyed by `(seq, payload)`, the per-family send queues holding
`(packet, address, result)` triples, and the active timeout timers
(`loop.call_later(timeout, on_timeout)`), keyed here by the probe key. -/
structure Ping.State where
  echo_seq : ℕ := 0
  pending_pings : List ((ℕ × List ℕ) × PingResult) := []
  pending_sends4 : List (List ℕ × Addr × PingResult) := []
  pending_sends6 : List (List ℕ × Addr × PingResult) := []
  timers : List ((ℕ × List ℕ) × ℚ) := []
deriving DecidableEq, Repr

/-- `Ping.ping` from `ping/ping.py`.  It first takes the current sequence
number and advances the counter (`(self.echo_seq + 1) & 0xFFFF`, i.e. modulo
`2^16`); only then does the `isinstance` chain run, raising `ValueError` for
an address that is neither IPv4 nor IPv6.  For an IP address it builds the
ECHO_REQUEST packet, creates the `PingResult`, inserts it into the pending
map, appends to the family's send queue, and schedules the timeout timer when
a timeout is given.  The 10 random payload bytes and the clock readings are
arguments (`payload`, `now`, `ts`). -/
def Ping.ping (st : Ping.State) (addr : Addr) (timeout : Option ℚ)
    (payload : List ℕ) (now ts : ℚ) : Except String PingResult × Ping.State :=
  let seq := st.echo_seq
  let st := { st with echo_seq := (st.echo_seq + 1) % 65536 }
  match addr with
  | .other =>
      (.error "Unexpected address type -- Should be IPv4Address or IPv6Address",
       st)
  | .v4 _ =>
      let packet := echoRequestPacket Ping.ICMP_ECHO_REQUEST seq payload
      let pr := mkPingResult addr seq payload now ts
      (.ok pr,
       { st with
          pending_pings := st.pending_pings ++ [((seq, payload), pr)],
          pending_sends4 := st.pending_sends4 ++ [(packet, addr, pr)],
          timers := match timeout with
            | some T => st.timers ++ [((seq, payload), T)]
            | none => st.timers })
  | .v6 _ =>
      let packet := echoRequestPacket Ping.ICMP6_ECHO_REQUEST seq payload
      let pr := mkPingResult addr seq payload now ts
      (.ok pr,
       { st with
          pending_pings := st.pending_pings ++ [((seq, payload), pr)],
          pending_sends6 := st.pending_sends6 ++ [(packet, addr, pr)],
          timers := match timeout with
            | some T => st.timers ++ [((seq, payload), T)]
            | none => st.timers })

/-- C7: building an ICMP ECHO_REQUEST (8-byte header with `type`, `code = 0`,
`checksum = 0`, `identifier = 0`, the 16-bit `seq`, followed by the 10-byte
payload) and running it through the engine's receive-side field extraction
yields back exactly the original type, code, identifier, sequence and
payload. -/
theorem icmp_echo_build_parse_roundtrip (seq : ℕ) (hseq : seq < 65536)
    (payload : List ℕ) (_hlen : payload.length = 10)
    (_hbytes : ∀ b ∈ payload, b < 256) :
    datagram_fields (echoRequestPacket Ping.ICMP_ECHO_REQUEST seq payload) =
      some (Ping.ICMP_ECHO_REQUEST, 0, 0, 0, seq, payload) := by
  unfold echoRequestPacket pack_u8 pack_u16 datagram_fields
  simp only [List.cons_append, List.nil_append]
  refine congrArg some ?_
  simp only [Prod.mk.injEq, Ping.ICMP_ECHO_REQUEST]
  refine ⟨by norm_num, by norm_num, by norm_num, by norm_num, by omega,
    by trivial⟩

/-- Witness for C7 at `seq = 4660` and a concrete 10-byte payload. -/
theorem icmp_echo_build_parse_roundtrip_witness :
    datagram_fields
        (echoRequestPacket Ping.ICMP_ECHO_REQUEST 4660
          [0, 1, 2, 3, 4, 5, 6, 7, 8, 9]) =
      some (Ping.ICMP_ECHO_REQUEST, 0, 0, 0, 4660,
        [0, 1, 2, 3, 4, 5, 6, 7, 8, 9]) :=
  icmp_echo_build_parse_roundtrip 4660 (by norm_num)
    [0, 1, 2, 3, 4, 5, 6, 7, 8, 9] (by simp) (by decide)

/-- C9: calling `Ping.ping` with an address that is neither IPv4 nor IPv6
fails synchronously, and the resulting engine state differs from the original
only in `echo_seq`, which has been advanced by one modulo `2^16`; the pending
map, both send queues and the timers are untouched. -/
theorem ping_bad_address_increments_seq_only (st : Ping.State)
    (timeout : Option ℚ) (payload : List ℕ) (now ts : ℚ) :
    (∃ msg, (Ping.ping st .other timeout payload now ts).1 = .error msg) ∧
    (Ping.ping st .other timeout payload now ts).2 =
      { st with echo_seq := (st.echo_seq + 1) % 65536 } := by
  constructor
  · exact ⟨_, rfl⟩
  · rfl

/-! ### `quantiles` and `format_ip_port` (`util.py`) -/

/-- The interpolation computed for one quantile inside the loop of
`quantiles` in `util.py`: `i = quantile * (len(data) - 1)`,
`i_int = floor(i)`, `i_frac = i - i_int`;
`value = (1 - i_frac) * data[i_int]`, plus `i_frac * data[i_int + 1]`
when `i_frac > 0`. -/
def quantile_value (data : List ℚ) (q : ℚ) : ℚ :=
  let i : ℚ := q * ((data.length : ℚ) - 1)
  let i_int : ℤ := ⌊i⌋
  let i_frac : ℚ := i - (i_int : ℚ)
  let value : ℚ := (1 - i_frac) * data.getD i_int.toNat 0
  if 0 < i_frac then value + i_frac * data.getD (i_int.toNat + 1) 0 else value

/-- `quantiles(data, quantiles)` from `util.py`.  It returns `None` for empty
`data`; otherwise it builds the list `ret` of interpolated values — and then
reaches the end of the function body without any `return` statement, so the
caller receives `None` in this case as well. -/
def quantiles (data : List ℚ) (qs : List ℚ) : Option (List ℚ) :=
  if data = [] then none
  else
    let _ret := qs.map (quantile_value data)
    none

/-- C2 (code bug): `quantiles` never returns the interpolated values — the
function body builds `ret` but has no `return ret`, so it evaluates to `None`
on every input; yet the interpolation it computes internally does match the
specified formula, e.g. the median of `[1, 2]` comes out as `3/2`. -/
theorem quantiles_missing_return :
    (∀ (data qs : List ℚ), quantiles data qs = none) ∧
    quantile_value [1, 2] (1 / 2) = 3 / 2 ∧
    (some [(3 : ℚ) / 2] : Option (List ℚ)) ≠ none := by
  refine ⟨fun data qs => ?_, ?_, by simp⟩
  · unfold quantiles; split <;> rfl
  · norm_num [quantile_value, List.getD]

/-- The test `isinstance(addr, IPv4Address)` inside `format_ip_port` in
`util.py`: `addr` there is the socket address *tuple* `(host, port, ...)`
(the parsed IP object is in the local variable `ip`), and a tuple is never an
`IPv4Address` instance, so the test is always false. -/
def addr_tuple_is_IPv4Address : Bool := false

/-- `format_ip_port(addr)` from `util.py`, for an address tuple whose host
part parses and prints back as the string `ip` and whose port is `port`.
Because the `isinstance` test is applied to the tuple rather than to `ip`,
the bracketed form is produced for every address family. -/
def format_ip_port (ip : String) (port : ℕ) : String :=
  if addr_tuple_is_IPv4Address then ip ++ ":" ++ toString port
  else "[" ++ ip ++ "]:" ++ toString port

/-- The endpoint rendering the specification asks for: `ip:port`, with the
IP wrapped in square brackets exactly when it is IPv6. -/
def format_ip_port_spec (ip : String) (isV6 : Bool) (port : ℕ) : String :=
  if isV6 then "[" ++ ip ++ "]:" ++ toString port
  else ip ++ ":" ++ toString port

/-- C8 (code bug): an IPv4 endpoint is rendered *with* brackets —
`format_ip_port` yields `[1.2.3.4]:80` where the specified rendering is
`1.2.3.4:80`. -/
theorem format_ip_port_brackets_ipv4 :
    format_ip_port "1.2.3.4" 80 = "[1.2.3.4]:80" ∧
    format_ip_port_spec "1.2.3.4" false 80 = "1.2.3.4:80" ∧
    format_ip_port "1.2.3.4" 80 ≠ format_ip_port_spec "1.2.3.4" false 80 := by
  refine ⟨rfl, rfl, ?_⟩
  decide

/-! ### `PingStatistics.Summary.loss` (`ping/ping_stats.py`) -/

/-- `PingStatistics.Summary.loss`: with `pong = status_count[SUCCESS]` and
`lost = status_count[TIMEOUT] + status_count[UNREACHABLE]`, return
`lost / total` when `total = pong + lost` is positive and `None` otherwise. -/
def PingStatistics.Summary.loss (status_count : PingResult.Status → ℕ) :
    Option ℚ :=
  let pong := status_count .SUCCESS
  let lost := status_count .TIMEOUT + status_count .UNREACHABLE
  let total := pong + lost
  if total > 0 then some ((lost : ℚ) / (total : ℚ)) else none

/-- C10: `loss` is `None` exactly when the SUCCESS, TIMEOUT and UNREACHABLE
counts are all zero, and it depends on nothing but those three counts —
CANCELED, SCHEDULED and PENDING probes contribute to neither the numerator
nor the denominator. -/
theorem loss_counts_only_terminal_statuses (sc : PingResult.Status → ℕ) :
    (PingStatistics.Summary.loss sc = none ↔
      (sc .SUCCESS = 0 ∧ sc .TIMEOUT = 0 ∧ sc .UNREACHABLE = 0)) ∧
    ∀ (sc' : PingResult.Status → ℕ),
      sc .SUCCESS = sc' .SUCCESS → sc .TIMEOUT = sc' .TIMEOUT →
      sc .UNREACHABLE = sc' .UNREACHABLE →
      PingStatistics.Summary.loss sc = PingStatistics.Summary.loss sc' := by
  constructor
  · by_cases h : 0 < sc .SUCCESS + (sc .TIMEOUT + sc .UNREACHABLE)
    · simp only [PingStatistics.Summary.loss, gt_iff_lt, h, if_true,
        reduceCtorEq, false_iff]
      intro hc
      omega
    · simp only [PingStatistics.Summary.loss, gt_iff_lt, h, if_false,
        true_iff]
      omega
  · intro sc' h1 h2 h3
    unfold PingStatistics.Summary.loss
    rw [h1, h2, h3]

/-- Witness for C10: a summary counting five CANCELED probes and nothing else
has the same (undefined) loss as the all-zero summary. -/
theorem loss_counts_only_terminal_statuses_witness :
    PingStatistics.Summary.loss
      (fun s => if s = PingResult.Status.CANCELED then 5 else 0) =
    PingStatistics.Summary.loss (fun _ => 0) :=
  (loss_counts_only_terminal_statuses
      (fun s => if s = PingResult.Status.CANCELED then 5 else 0)).2
    (fun _ => 0) rfl rfl rfl

/-! ### NDT7 sliding-window statistics (`ndt7/ndt7_stats.py`) -/

/-- The `Delta` sub-record attached under `AppInfo`. -/
structure AppInfoDelta where
  ElapsedTime : ℤ
  NumBytes : ℤ
deriving DecidableEq, Repr

/-- The `AppInfo` sub-record of a Measurement: elapsed time in microseconds
and transferred bytes, plus the `Delta`/`Rate` entries the aggregator may
attach (`Rate` holds the `NumBytes` rate). -/
structure AppInfo where
  ElapsedTime : ℤ
  NumBytes : ℤ
  Delta : Option AppInfoDelta := none
  Rate : Option ℚ := none
deriving DecidableEq, Repr

/-- The `Delta` sub-record attached under `TCPInfo` (the eight counters the
aggregator differences). -/
structure TCPInfoDelta where
  BusyTime : ℤ
  BytesAcked : ℤ
  BytesReceived : ℤ
  BytesSent : ℤ
  BytesRetrans : ℤ
  ElapsedTime : ℤ
  RWndLimited : ℤ
  SndBufLimited : ℤ
deriving DecidableEq, Repr

/-- The `Rate` sub-record attached under `TCPInfo`. -/
structure TCPInfoRate where
  BusyTime : ℚ
  BytesAcked : ℚ
  BytesReceived : ℚ
  BytesSent : ℚ
  BytesRetrans : ℚ
  ElapsedTime : ℚ
  RWndLimited : ℚ
  SndBufLimited : ℚ
deriving DecidableEq, Repr

/-- The `TCPInfo` sub-record of a Measurement.  `MinRTT`, `RTT` and `RTTVar`
appear in producer measurements but are never read by the aggregator. -/
structure TCPInfo where
  BusyTime : ℤ
  BytesAcked : ℤ
  BytesReceived : ℤ
  BytesSent : ℤ
  BytesRetrans : ℤ
  ElapsedTime : ℤ
  MinRTT : Option ℤ := none
  RTT : Option ℤ := none
  RTTVar : Option ℤ := none
  RWndLimited : ℤ
  SndBufLimited : ℤ
  Delta : Option TCPInfoDelta := none
  Rate : Option TCPInfoRate := none
deriving DecidableEq, Repr

/-- An NDT7 `Measurement` dict: every sub-record is optional (`some` models
key presence).  `timestamp` is the wall-clock stamp `update` writes into its
private copy, and `isInitial` models object identity with the
`INITIAL_MEASUREMENT` sentinel (the `is` check in the source). -/
structure Measurement where
  AppInfo : Option AppInfo := none
  ConnectionInfo : Option (String × String) := none
  Origin : Option String := none
  Test : Option String := none
  TCPInfo : Option TCPInfo := none
  timestamp : ℚ := 0
  isInitial : Bool := false
deriving DecidableEq, Repr

namespace NDT7Statistics

/-- `NDT7Statistics.INITIAL_MEASUREMENT`: the all-zero sentinel. -/
def INITIAL_MEASUREMENT : Measurement :=
  { AppInfo := some { ElapsedTime := 0, NumBytes := 0 },
    TCPInfo := some
      { BusyTime := 0, BytesAcked := 0, BytesReceived := 0,
        BytesSent := 0, BytesRetrans := 0, ElapsedTime := 0,
        RWndLimited := 0, SndBufLimited := 0 },
    isInitial := true }

/-- `NDT7Statistics.time_difference`: the `ElapsedTime` difference in seconds
(`* 1e-6`) of `AppInfo` when both measurements have it, else of `TCPInfo`
when both have that, else the wall-clock `timestamp` difference. -/
def time_difference (a b : Measurement) : ℚ :=
  match a.AppInfo, b.AppInfo with
  | some ai, some bi =>
      ((bi.ElapsedTime - ai.ElapsedTime : ℤ) : ℚ) * (1 / 1000000)
  | _, _ =>
    match a.TCPInfo, b.TCPInfo with
    | some ai, some bi =>
        ((bi.ElapsedTime - ai.ElapsedTime : ℤ) : ℚ) * (1 / 1000000)
    | _, _ => b.timestamp - a.timestamp

/-- The loop `while len(group_data) >= 3 and group_data[0] is
INITIAL_MEASUREMENT: group_data.pop(0)`. -/
def evict_initial_head : List Measurement → List Measurement
  | [] => []
  | m :: rest =>
      if rest.length + 1 ≥ 3 ∧ m.isInitial = true then evict_initial_head rest
      else m :: rest

/-- The windowed eviction loop `while len(group_data) >= 3 and
self.time_difference(group_data[1], group_data[-1]) >= self.window:
group_data.pop(0)`.  Note the guard compares the *second* element against the
last, and stops as soon as fewer than three elements remain. -/
def evict_window (W : ℚ) : List Measurement → List Measurement
  | m0 :: m1 :: m2 :: rest =>
      if time_difference m1 (rest.getLastD m2) ≥ W then
        evict_window W (m1 :: m2 :: rest)
      else m0 :: m1 :: m2 :: rest
  | l => l

/-- The no-window loop `while len(group_data) >= 3: group_data.pop(1)`. -/
def drop_index1 : List Measurement → List Measurement
  | m0 :: _m1 :: m2 :: rest => drop_index1 (m0 :: m2 :: rest)
  | l => l
termination_by l => l.length
decreasing_by simp

/-- The tail of `NDT7Statistics.update`, which mutates the just-appended
measurement `after`: when both `before` and `after` carry `AppInfo`, attach
the per-field `Delta` and, when the elapsed seconds exceed `0.01`, the
`Rate`; likewise for `TCPInfo`. -/
def attach_deltas (before after : Measurement) : Measurement :=
  let after1 : Measurement :=
    match before.AppInfo, after.AppInfo with
    | some b, some a =>
        let d : AppInfoDelta :=
          { ElapsedTime := a.ElapsedTime - b.ElapsedTime,
            NumBytes := a.NumBytes - b.NumBytes }
        let elapsedTimeSeconds : ℚ := (d.ElapsedTime : ℚ) * (1 / 1000000)
        let rate : Option ℚ :=
          if elapsedTimeSeconds > 1 / 100 then
            some ((d.NumBytes : ℚ) / elapsedTimeSeconds)
          else a.Rate
        { after with AppInfo := some { a with Delta := some d, Rate := rate } }
    | _, _ => after
  match before.TCPInfo, after1.TCPInfo with
  | some b, some a =>
      let d : TCPInfoDelta :=
        { BusyTime := a.BusyTime - b.BusyTime,
          BytesAcked := a.BytesAcked - b.BytesAcked,
          BytesReceived := a.BytesReceived - b.BytesReceived,
          BytesSent := a.BytesSent - b.BytesSent,
          BytesRetrans := a.BytesRetrans - b.BytesRetrans,
          ElapsedTime := a.ElapsedTime - b.ElapsedTime,
          RWndLimited := a.RWndLimited - b.RWndLimited,
          SndBufLimited := a.SndBufLimited - b.SndBufLimited }
      let elapsedTimeSeconds : ℚ := (d.ElapsedTime : ℚ) * (1 / 1000000)
      let rate : Option TCPInfoRate :=
        if elapsedTimeSeconds > 1 / 100 then
          some { BusyTime := (d.BusyTime : ℚ) / elapsedTimeSeconds,
                 BytesAcked := (d.BytesAcked : ℚ) / elapsedTimeSeconds,
                 BytesReceived := (d.BytesReceived : ℚ) / elapsedTimeSeconds,
                 BytesSent := (d.BytesSent : ℚ) / elapsedTimeSeconds,
                 BytesRetrans := (d.BytesRetrans : ℚ) / elapsedTimeSeconds,
                 ElapsedTime := (d.ElapsedTime : ℚ) / elapsedTimeSeconds,
                 RWndLimited := (d.RWndLimited : ℚ) / elapsedTimeSeconds,
                 SndBufLimited := (d.SndBufLimited : ℚ) / elapsedTimeSeconds }
        else a.Rate
      { after1 with TCPInfo := some { a with Delta := some d, Rate := rate } }
  | _, _ => after1

/-- `NDT7Statistics.update` restricted to one group's list: copy the incoming
measurement and stamp it (`measurement = dict(measurement)` — the copy is a
fresh dict, hence never identical to the sentinel), append it, run the
sentinel-eviction loop, then either the no-window `pop(1)` loop or the
windowed head-eviction loop, pick `before` (`group_data[0]` when more than
one element remains, else the sentinel) and attach deltas to the appended
measurement.  All three eviction loops only ever remove elements strictly
before the last position, so the appended copy is the final list's last
element; attaching the deltas to it is the in-place mutation of the source. -/
def update (window : Option ℚ) (group_data : List Measurement)
    (measurement : Measurement) (now : ℚ) : List Measurement :=
  let m := { measurement with timestamp := now, isInitial := false }
  let gd := group_data ++ [m]
  let gd := evict_initial_head gd
  let gd :=
    match window with
    | none => drop_index1 gd
    | some W => evict_window W gd
  let before :=
    if gd.length > 1 then gd.headD INITIAL_MEASUREMENT
    else INITIAL_MEASUREMENT
  gd.dropLast ++ [attach_deltas before m]

end NDT7Statistics

/-- A measurement carrying only `AppInfo` with the given `ElapsedTime` (in
microseconds) and zero bytes, as in the specification's sliding-window
eviction scenario. -/
def measAt (et : ℤ) : Measurement :=
  { AppInfo := some { ElapsedTime := et, NumBytes := 0 } }

/-- The group list after inserting measurements with `ElapsedTime` 0, 100000,
200000 and 5100000 microseconds into one group with window `W = 1` second. -/
def window_example_group : List Measurement :=
  NDT7Statistics.update (some 1)
    (NDT7Statistics.update (some 1)
      (NDT7Statistics.update (some 1)
        (NDT7Statistics.update (some 1) [] (measAt 0) 0)
        (measAt 100000) 0)
      (measAt 200000) 0)
    (measAt 5100000) 0

/-- Evaluation of the eviction scenario: the group retains exactly the last
two inserted measurements, with their deltas and rates attached. -/
theorem window_example_group_eq :
    window_example_group =
      [{ AppInfo := some
           { ElapsedTime := 200000, NumBytes := 0,
             Delta := some { ElapsedTime := 200000, NumBytes := 0 },
             Rate := some 0 } },
       { AppInfo := some
           { ElapsedTime := 5100000, NumBytes := 0,
             Delta := some { ElapsedTime := 4900000, NumBytes := 0 },
             Rate := some 0 } }] := by
  norm_num [window_example_group, measAt, NDT7Statistics.update,
    NDT7Statistics.evict_initial_head, NDT7Statistics.evict_window,
    NDT7Statistics.attach_deltas, NDT7Statistics.time_difference,
    NDT7Statistics.INITIAL_MEASUREMENT, List.getLastD]

/-- C3 counterexample: after inserting Measurements with
`AppInfo.ElapsedTime` 0, 100000, 200000, 5100000 microseconds into one group
with window `W = 1` s, the group does end with exactly 2 elements, but the
first remaining element has `ElapsedTime = 200000 < 4100000`: the `len ≥ 3`
guard of the eviction loop stops before the window bound ever applies to the
head, so the claimed conjunction (2 elements *and* head within the window)
is false. -/
theorem ndt7_window_eviction_keeps_stale_head :
    window_example_group.length = 2 ∧
    (window_example_group.headD NDT7Statistics.INITIAL_MEASUREMENT).AppInfo.map
        AppInfo.ElapsedTime = some 200000 ∧
    ¬ (window_example_group.length = 2 ∧
       ∃ e, (window_example_group.headD
              NDT7Statistics.INITIAL_MEASUREMENT).AppInfo.map
            AppInfo.ElapsedTime = some e ∧ 4100000 ≤ e) := by
  refine ⟨by simp [window_example_group_eq], by simp [window_example_group_eq],
    ?_⟩
  rintro ⟨-, e, he, hge⟩
  simp [window_example_group_eq] at he
  omega

/-- C3 amended: the same insertion sequence leaves the group with exactly the
last two inserted measurements: 2 elements, the first with
`ElapsedTime = 200000` and the last with `ElapsedTime = 5100000` (only the
*second* element is guaranteed within the window of the last, since the
eviction guard compares `list[1]` with `list[-1]` and requires `len ≥ 3`). -/
theorem ndt7_window_eviction_amended :
    window_example_group.length = 2 ∧
    (window_example_group.headD NDT7Statistics.INITIAL_MEASUREMENT).AppInfo.map
        AppInfo.ElapsedTime = some 200000 ∧
    (window_example_group.getLastD NDT7Statistics.INITIAL_MEASUREMENT).AppInfo.map
        AppInfo.ElapsedTime = some 5100000 := by
  simp [window_example_group_eq]

/-! ### NDT7 sender loop (`ndt7/ndt7.py`) -/

namespace NDT7

/-- `NDT7.MAX_SIZE = 1 << 24`. -/
def MAX_SIZE : ℕ := 1 <<< 24

end NDT7

/-- The sender-relevant state of `producer_handler` in
`NDT7.handle_websocket`: the payload buffer length (`len(msg)`, initially
`2^13` random bytes), the running `transferred_bytes` counter, and — for the
doubling bound — how many times the buffer has been doubled. -/
structure SenderState where
  msgLen : ℕ
  transferred_bytes : ℕ
  doublings : ℕ
deriving DecidableEq, Repr

/-- One pass through the payload branch of the sender loop:
`if len(msg) < NDT7.MAX_SIZE and len(msg) < transferred_bytes / 16:
msg *= 2`, then the message is sent and `transferred_bytes += len(msg)`.
The float comparison `len(msg) < transferred_bytes / 16` is modelled exactly
as `16 * len(msg) < transferred_bytes`. -/
def producer_send (s : SenderState) : SenderState :=
  if s.msgLen < NDT7.MAX_SIZE ∧ 16 * s.msgLen < s.transferred_bytes then
    { msgLen := 2 * s.msgLen,
      transferred_bytes := s.transferred_bytes + 2 * s.msgLen,
      doublings := s.doublings + 1 }
  else
    { s with transferred_bytes := s.transferred_bytes + s.msgLen }

/-- Sender states reachable in one session: the initial
`msg = random.randbytes(1 << 13)` with nothing transferred, payload-branch
passes, and the arbitrary growth of `transferred_bytes` performed by the
measurement branch's concurrent `consumer_handler` (which adds the length of
every inbound binary message to the shared counter). -/
inductive SenderReachable : SenderState → Prop
  | init :
      SenderReachable { msgLen := 2 ^ 13, transferred_bytes := 0,
                        doublings := 0 }
  | send (s : SenderState) :
      SenderReachable s → SenderReachable (producer_send s)
  | recv (s : SenderState) (n : ℕ) :
      SenderReachable s →
      SenderReachable { s with transferred_bytes := s.transferred_bytes + n }

/-- C6: in every reachable sender state the buffer length is exactly
`2^(13 + doublings)`, the buffer has been doubled at most 11 times, and the
buffer length never exceeds `MAX_SIZE = 2^24`. -/
theorem ndt7_sender_buffer_bounded (s : SenderState)
    (h : SenderReachable s) :
    s.msgLen = 2 ^ (13 + s.doublings) ∧ s.doublings ≤ 11 ∧
    s.msgLen ≤ 2 ^ 24 := by
  induction h with
  | init => refine ⟨rfl, by norm_num, by norm_num⟩
  | send s _hs ih =>
      obtain ⟨hlen, hd, hb⟩ := ih
      unfold producer_send
      split
      · rename_i hcond
        have h1 : s.msgLen < 2 ^ 24 := by
          have := hcond.1
          simpa [NDT7.MAX_SIZE] using this
        have hd10 : s.doublings ≤ 10 := by
          by_contra hcon
          have h11 : 11 ≤ s.doublings := by omega
          have hmono : 2 ^ 24 ≤ 2 ^ (13 + s.doublings) :=
            Nat.pow_le_pow_right (by norm_num) (by omega)
          rw [← hlen] at hmono
          omega
        refine ⟨?_, by simpa using hd10.trans (by norm_num), ?_⟩
        · show 2 * s.msgLen = 2 ^ (13 + (s.doublings + 1))
          rw [hlen, show 13 + (s.doublings + 1) = (13 + s.doublings) + 1 by
            omega, pow_succ]
          ring
        · show 2 * s.msgLen ≤ 2 ^ 24
          rw [hlen]
          calc 2 * 2 ^ (13 + s.doublings) = 2 ^ ((13 + s.doublings) + 1) := by
                rw [pow_succ]; ring
            _ ≤ 2 ^ 24 := Nat.pow_le_pow_right (by norm_num) (by omega)
      · exact ⟨hlen, hd, hb⟩
  | recv s n _hs ih => exact ih

/-- Witness for C6 at the initial sender state. -/
theorem ndt7_sender_buffer_bounded_witness :
    ({ msgLen := 2 ^ 13, transferred_bytes := 0, doublings := 0 } :
        SenderState).msgLen =
      2 ^ (13 + ({ msgLen := 2 ^ 13, transferred_bytes := 0, doublings := 0 } :
        SenderState).doublings) ∧
    ({ msgLen := 2 ^ 13, transferred_bytes := 0, doublings := 0 } :
        SenderState).doublings ≤ 11 ∧
    ({ msgLen := 2 ^ 13, transferred_bytes := 0, doublings := 0 } :
        SenderState).msgLen ≤ 2 ^ 24 :=
  ndt7_sender_buffer_bounded _ .init

/-! ### `ping_pretty` interval resolution (`ping/ping_main.py`) -/

/-- The inter-probe sleep interval of `ping_pretty`: when the caller supplies
no interval it becomes `0.005` s in flood mode and `0.25` s otherwise; a
supplied interval is used as is.  This exact value is then passed to
`asyncio.sleep(interval)` between consecutive probes across all hosts.  The
host list is a parameter here to reflect that the host count is in scope in
`ping_pretty` but takes no part in the computation. -/
def ping_pretty_interval (_hostnames : List String) (flood : Bool)
    (interval : Option ℚ) : ℚ :=
  match interval with
  | none => if flood then 5 / 1000 else 1 / 4
  | some i => i

/-- C4 counterexample: with two hosts and `--interval 0.1` the inter-probe
sleep is `0.1` s, not `0.05` s; with two hosts, no supplied interval and no
flood mode it is `0.25` s, not `0.125` s.  The interval is never divided by
the host count. -/
theorem ping_pretty_interval_not_divided :
    ping_pretty_interval ["a.example", "b.example"] false (some (1 / 10)) =
      1 / 10 ∧
    (1 / 10 : ℚ) ≠ 1 / 10 / 2 ∧
    ping_pretty_interval ["a.example", "b.example"] false none = 1 / 4 ∧
    (1 / 4 : ℚ) ≠ 1 / 4 / 2 := by
  refine ⟨rfl, by norm_num, rfl, by norm_num⟩

/-- C4 amended: the effective inter-probe sleep interval is the supplied
interval itself when one is given, else `0.005` s in flood mode, else
`0.25` s; it does not depend on the host list at all. -/
theorem ping_pretty_interval_amended (hostnames : List String) (flood : Bool)
    (i : ℚ) :
    ping_pretty_interval hostnames flood none =
      (if flood then 5 / 1000 else 1 / 4) ∧
    ping_pretty_interval hostnames flood (some i) = i ∧
    ∀ (hostnames' : List String) (interval : Option ℚ),
      ping_pretty_interval hostnames flood interval =
        ping_pretty_interval hostnames' flood interval :=
  ⟨rfl, rfl, fun _ _ => rfl⟩
